import Mathlib

/-!
Verification development for the `visualping-local` repository
(UCLA class tracker: Next.js API routes over a Supabase record store,
plus a scheduled monitoring engine).

The API routes (`web/src/app/api/...`), the Supabase helper library
(`web/src/lib/supabase.ts`) and the database schema (`supabase/schema.sql`)
are embedded below as executable Lean functions.  External effects
(the WHATWG URL parser, the outbound Resend validation request, row ids
and clock readings generated by the database) are passed in as explicit
parameters, so every handler is a pure function from its inputs and the
store state to a result and the new store state.

The monitoring engine itself (`src/monitor.py`) is not part of the
source tree available here; the components of it that the properties
mention (Normalizer, per-tracker check pass, tracker selection) are
modelled from the specification and are marked as such in their doc
comments.
-/

namespace VisualPing

/-- A row of the `tracked_urls` table, following the `TrackedUrl`
interface in `web/src/lib/supabase.ts` and `supabase/schema.sql`.
Timestamp/date columns are kept as the ISO strings the TypeScript
layer handles. -/
structure TrackedUrl where
  id : String
  email : String
  resend_api_key : String
  ucla_url : String
  class_name : Option String
  term_code : Option String
  subject_area : Option String
  catalog_number : Option String
  selector : String
  check_interval : String
  expires_at : Option String
  baseline_hash : Option String
  baseline_content : Option String
  last_checked_at : Option String
  last_change_at : Option String
  is_active : Bool
  created_at : String
  updated_at : String
deriving Repr, DecidableEq

/-- A row of the `email_tokens` table (see `supabase/schema.sql` and the
`EmailToken` interface in `web/src/lib/supabase.ts`).  The two
timestamptz columns are modelled as `Nat` instants so that the
`expires_at > now()` comparison performed by the GET handler is ordinary
arithmetic. -/
structure EmailToken where
  id : String
  email : String
  token : String
  expires_at : Nat
  used_at : Option Nat
  created_at : Nat
deriving Repr, DecidableEq

/-- JavaScript truthiness test for a `string | null | undefined` value:
`!x` is true exactly when the value is absent or the empty string. -/
def optFalsy : Option String → Bool
  | none => true
  | some s => s = ""

/-- Rendering of a possibly-undefined string where JavaScript would
coerce `undefined` to the text "undefined" (template literals). -/
def jsStr : Option String → String
  | none => "undefined"
  | some s => s

/-- JavaScript `a || b` for a `string | undefined` left operand:
falls back to `b` when `a` is absent or empty. -/
def jsOr (a : Option String) (b : String) : String :=
  if optFalsy a then b else jsStr a

/-- Character class `[^\s@]` of the email regular expression
`/^[^\s@]+@[^\s@]+\.[^\s@]+$/` used by the POST handlers. -/
def emailChar (c : Char) : Bool :=
  !(c = '@') && !c.isWhitespace

/-- Splitting a character list at every occurrence of a separator
character (the structural core of splitting a string on one
character). -/
def splitAtChar (c : Char) : List Char → List (List Char)
  | [] => [[]]
  | x :: xs =>
    let r := splitAtChar c xs
    if x = c then [] :: r
    else
      match r with
      | [] => [[x]]
      | h :: t => (x :: h) :: t

/-- Executable matcher for the anchored email regular expression
`/^[^\s@]+@[^\s@]+\.[^\s@]+$/`: exactly one `@`, a non-empty local part
of `[^\s@]` characters, and a domain of `[^\s@]` characters containing
an interior dot. -/
def emailFormatValid (s : String) : Bool :=
  match splitAtChar '@' s.toList with
  | [lp, dom] =>
      !lp.isEmpty && lp.all emailChar && dom.all emailChar &&
      ((List.range dom.length).any fun i =>
         decide (0 < i) && decide (i + 1 < dom.length) && dom.getD i ' ' = '.')
  | _ => false

/-- Dropping Unicode whitespace from both ends of a character list. -/
def trimChars (l : List Char) : List Char :=
  ((l.dropWhile Char.isWhitespace).reverse.dropWhile Char.isWhitespace).reverse

/-- The trim method of JavaScript strings: leading and trailing
whitespace removed. -/
def jsTrim (s : String) : String :=
  String.mk (trimChars s.toList)

/-- The startsWith method of JavaScript strings. -/
def jsStartsWith (s pre : String) : Bool :=
  pre.toList.isPrefixOf s.toList

/-- The observable pieces of a parsed WHATWG URL that
`parseUclaUrl` in `web/src/lib/supabase.ts` inspects: the hostname and
the decoded query parameters in order.  `new URL(url)` throwing is
modelled by handing `parseUclaUrl` a `none`. -/
structure URLParts where
  hostname : String
  params : List (String × String)
deriving Repr, DecidableEq

/-- `URLSearchParams.get`: the value of the first parameter with the
given name, or null. -/
def getParam (u : URLParts) (name : String) : Option String :=
  (u.params.find? fun p => p.1 = name).map Prod.snd

/-- `hostname.includes(..)` with pattern `sa.ucla.edu`: substring containment. -/
def hostIncludes (host pat : String) : Bool :=
  decide (pat.toList <:+: host.toList)

/-- The record returned by `parseUclaUrl` on success. -/
structure ParsedUcla where
  termCode : String
  subjectArea : String
  catalogNumber : String
  classId : String
deriving Repr, DecidableEq

/-- `parseUclaUrl` from `web/src/lib/supabase.ts`, over the outcome of
the URL constructor (`none` = the constructor threw, handled by the
try/catch of the function).  Requires the hostname to contain `sa.ucla.edu`
and the four query parameters `term_cd`, `subj_area_cd` (trimmed),
`crs_catlg_no` (trimmed), `class_id` to be present and truthy. -/
def parseUclaUrl (u : Option URLParts) : Option ParsedUcla :=
  match u with
  | none => none
  | some parts =>
    if !hostIncludes parts.hostname "sa.ucla.edu" then none
    else
      let termCode := getParam parts "term_cd"
      let subjectArea := (getParam parts "subj_area_cd").map jsTrim
      let catalogNumber := (getParam parts "crs_catlg_no").map jsTrim
      let classId := getParam parts "class_id"
      if optFalsy termCode || optFalsy subjectArea ||
         optFalsy catalogNumber || optFalsy classId then none
      else some { termCode := jsStr termCode
                  subjectArea := jsStr subjectArea
                  catalogNumber := jsStr catalogNumber
                  classId := jsStr classId }

/-- The JSON body of a POST /api/trackers request; every field may be
absent. -/
structure CreateRequest where
  email : Option String
  resendApiKey : Option String
  uclaUrl : Option String
  className : Option String
  termCode : Option String
  subjectArea : Option String
  catalogNumber : Option String
  checkInterval : Option String
  expiresAt : Option String
deriving Repr, DecidableEq

/-- `const { checkInterval = "hourly" } = body`: the destructuring
default applied when the field is absent. -/
def effInterval (r : CreateRequest) : String :=
  r.checkInterval.getD "hourly"

/-- Outcome of the handler live test request against the Resend API
(`GET https://api.resend.com/domains`), passed in as an oracle:
the response was ok, or not ok with some status, or `fetch` threw. -/
inductive ResendCheck where
  | ok
  | failStatus (status : Nat)
  | threw
deriving Repr, DecidableEq

/-- Result of an API-route invocation: a JSON error with an HTTP status,
or the successful payload. -/
inductive PostResult where
  | error (status : Nat) (msg : String)
  | created (t : TrackedUrl)
deriving Repr, DecidableEq

def PostResult.isError : PostResult → Bool
  | .error _ _ => true
  | .created _ => false

/-- Supabase `.single()`: yields a row only when the filtered result set
has exactly one row (zero rows and multiple rows both produce an error,
which the handlers observe as `data = null`). -/
def singleRow {α : Type} : List α → Option α
  | [x] => some x
  | _ => none

/-- The duplicate-check predicate of POST /api/trackers: same email,
same UCLA url, and `is_active = true`. -/
def isActiveDup (em url : String) (t : TrackedUrl) : Bool :=
  t.email = em && t.ucla_url = url && t.is_active

/-- The row inserted by POST /api/trackers (lines building the
`insert({...})` payload), completed with the `supabase/schema.sql`
column defaults for the columns the insert does not mention:
`selector` defaults to `#enrl_mtng_info`, the baseline and check/change
timestamp columns default to null, `id`/`created_at`/`updated_at` are
generated by the database and passed in here. -/
def newTracker (req : CreateRequest) (parsed : ParsedUcla)
    (nid nowTs : String) : TrackedUrl :=
  { id := nid
    email := jsStr req.email
    resend_api_key := jsStr req.resendApiKey
    ucla_url := jsStr req.uclaUrl
    class_name := some (jsOr req.className
      (jsTrim (jsStr req.subjectArea ++ " " ++ jsStr req.catalogNumber)))
    term_code := some (jsOr req.termCode parsed.termCode)
    subject_area := some (jsOr req.subjectArea parsed.subjectArea)
    catalog_number := some (jsOr req.catalogNumber parsed.catalogNumber)
    selector := "#enrl_mtng_info"
    check_interval := effInterval req
    expires_at := if optFalsy req.expiresAt then none else req.expiresAt
    baseline_hash := none
    baseline_content := none
    last_checked_at := none
    last_change_at := none
    is_active := true
    created_at := nowTs
    updated_at := nowTs }

/-- Early rejection of the Resend-key live validation: `fetch` threw, or
the response was not ok with status 400, 401 or 403.  Any other non-ok
status is logged and the handler continues. -/
def resendRejection : ResendCheck → Option (Nat × String)
  | .threw => some (400, "Could not validate Resend API key - please try again")
  | .failStatus s =>
      if s = 400 || s = 401 || s = 403 then
        some (400, "Invalid Resend API key")
      else none
  | .ok => none

/-- POST /api/trackers from the API route file, as a pure function of
the request body, the URL-parse outcome for `uclaUrl`, the Resend
validation oracle, the current `tracked_urls` rows, and the
database-generated id and timestamp.  Returns the response and the new
table state. -/
def postTrackers (req : CreateRequest) (urlParse : Option URLParts)
    (chk : ResendCheck) (db : List TrackedUrl) (nid nowTs : String) :
    PostResult × List TrackedUrl :=
  if optFalsy req.email || optFalsy req.uclaUrl ||
     optFalsy req.resendApiKey || optFalsy req.expiresAt then
    (.error 400 "Email, UCLA URL, Resend API key, and end date are required", db)
  else if !emailFormatValid (jsStr req.email) then
    (.error 400 "Invalid email format", db)
  else if !jsStartsWith (jsStr req.resendApiKey) "re_" then
    (.error 400 "Invalid Resend API key format - should start with re_", db)
  else
    match resendRejection chk with
    | some e => (.error e.1 e.2, db)
    | none =>
      match parseUclaUrl urlParse with
      | none => (.error 400 "Invalid UCLA class URL", db)
      | some parsed =>
        if !(["hourly", "6hours", "daily"].contains (effInterval req)) then
          (.error 400 "Invalid check interval", db)
        else
          match singleRow
              (db.filter (isActiveDup (jsStr req.email) (jsStr req.uclaUrl))) with
          | some _ => (.error 409 "You are already tracking this class", db)
          | none =>
            let t := newTracker req parsed nid nowTs
            (.created t, db ++ [t])

/-- Result of a GET /api/trackers invocation. -/
inductive GetResult where
  | error (status : Nat) (msg : String)
  | ok (trackers : List TrackedUrl)
deriving Repr, DecidableEq

/-- The token-eligibility filter of GET /api/trackers:
`token = tok`, `email = em`, `used_at` is null, `expires_at > now`. -/
def tokenEligible (em tok : String) (now : Nat) (r : EmailToken) : Bool :=
  r.token = tok && r.email = em && r.used_at = none && decide (now < r.expires_at)

/-- GET /api/trackers from the API route file, as a pure function of the
query parameters, the `email_tokens` and `tracked_urls` rows, and the
current time.  When a token is supplied it must match an unused,
unexpired row for the email (via `.single()`), which is then marked
used; afterwards (or when no token is supplied at all) the trackers of that email are returned. -/
def getTrackers (tokens : List EmailToken) (db : List TrackedUrl)
    (emailP tokenP : Option String) (now : Nat) :
    GetResult × List EmailToken :=
  if optFalsy emailP then (.error 400 "Email is required", tokens)
  else if optFalsy tokenP then
    (.ok (db.filter fun t => t.email = jsStr emailP), tokens)
  else
    match singleRow
        (tokens.filter (tokenEligible (jsStr emailP) (jsStr tokenP) now)) with
    | none => (.error 401 "Invalid or expired token", tokens)
    | some row =>
      (.ok (db.filter fun t => t.email = jsStr emailP),
       tokens.map fun r =>
         if r.id = row.id then { r with used_at := some now } else r)

/-- Result of a DELETE /api/trackers invocation. -/
inductive DeleteResult where
  | error (status : Nat) (msg : String)
  | deleted
deriving Repr, DecidableEq

/-- The per-row effect of the DELETE handler
`update({ is_active: false }).eq("id", id).eq("email", email)`:
rows matching both filters get `is_active := false`, all other rows are
untouched. -/
def softDeleteRow (idv emv : String) (t : TrackedUrl) : TrackedUrl :=
  if t.id = idv && t.email = emv then { t with is_active := false } else t

/-- DELETE /api/trackers from the API route file: requires both query
parameters, then soft-deletes (deactivates) the matching rows, never
removing any row. -/
def deleteTracker (db : List TrackedUrl) (idP emailP : Option String) :
    DeleteResult × List TrackedUrl :=
  if optFalsy idP || optFalsy emailP then
    (.error 400 "Tracker ID and email are required", db)
  else
    (.deleted, db.map (softDeleteRow (jsStr idP) (jsStr emailP)))

/-! ### Monitoring engine, modelled from the specification

The engine `src/monitor.py` is not in the source tree available here;
the definitions below carry `Modelled from the spec:` doc comments and
follow the specification text (sections 4.2, 4.3, 4.5). -/

/-- Modelled from the spec: the word decomposition of the Normalizer.
`src/monitor.py` is absent from the tree; spec section 4.2 prescribes
collapsing runs of whitespace to a single space and trimming
leading/trailing whitespace, i.e. the canonical form is the whitespace-
separated words joined by single spaces. -/
def wsWordsAux : List Char → List Char → List String
  | [], acc => if acc.isEmpty then [] else [String.mk acc.reverse]
  | c :: cs, acc =>
    if c.isWhitespace then
      if acc.isEmpty then wsWordsAux cs []
      else String.mk acc.reverse :: wsWordsAux cs []
    else wsWordsAux cs (c :: acc)

/-- Modelled from the spec: the whitespace-separated words of a raw
content string, in order (spec section 4.2). -/
def wsWords (s : String) : List String :=
  wsWordsAux s.toList []

/-- Modelled from the spec: the canonical string of the Normalizer
(spec section 4.2) — whitespace runs collapsed to one space, ends
trimmed. -/
def joinSp : List String → String
  | [] => ""
  | [w] => w
  | w :: ws => w ++ " " ++ joinSp ws

/-- Modelled from the spec: the canonical string of the Normalizer
(spec section 4.2) — whitespace runs collapsed to one space, ends
trimmed: the words joined by single spaces. -/
def canonicalize (s : String) : String :=
  joinSp (wsWords s)

/-- Modelled from the spec: a deterministic fixed-width content hash
(spec section 4.2 asks for a strong hash of the canonical string; the
property under verification needs only that it is a pure function of
that string, so a 64-bit polynomial rolling hash stands in for it). -/
def hashStr (s : String) : Nat :=
  s.toList.foldl (fun h c => (h * 31 + c.toNat) % 2 ^ 64) 5381

/-- Modelled from the spec: the Normalizer fingerprint of a raw
content string — the hash of its canonical form (spec section 4.2). -/
def fingerprint (s : String) : Nat :=
  hashStr (canonicalize s)

/-- Outcome of one fetch of a tracked target (spec section 4.1):
the extracted textual content, or a typed fetch failure. -/
inductive FetchOutcome where
  | success (content : String)
  | failure
deriving Repr, DecidableEq

/-- The per-run check classification (spec section 3, "Check Result"). -/
inductive CheckResult where
  | firstRun
  | unchanged
  | changed
  | fetchError
deriving Repr, DecidableEq

/-- Modelled from the spec: the pass of one tracker through
Fetch - Normalize - Detect - (Notify) - Persist (spec sections 4.3 and
4.5), over the tracker row.  Returns the updated row, the check result,
and whether a notification was sent.  A fetch failure records only the
attempt timestamp; a first successful check establishes the baseline
without notifying; a matching fingerprint leaves everything but
`last_checked_at` untouched; a differing fingerprint notifies, replaces
the baseline and sets `last_change_at`. -/
def runCheck (t : TrackedUrl) (f : FetchOutcome) (nowTs : String) :
    TrackedUrl × CheckResult × Bool :=
  match f with
  | .failure => ({ t with last_checked_at := some nowTs }, .fetchError, false)
  | .success content =>
    let canon := canonicalize content
    let fp := toString (hashStr canon)
    match t.baseline_hash with
    | none =>
      ({ t with baseline_hash := some fp
                baseline_content := some canon
                last_checked_at := some nowTs }, .firstRun, false)
    | some b =>
      if fp = b then
        ({ t with last_checked_at := some nowTs }, .unchanged, false)
      else
        ({ t with baseline_hash := some fp
                  baseline_content := some canon
                  last_checked_at := some nowTs
                  last_change_at := some nowTs }, .changed, true)

/-- The interval tier a pass is requested for (spec section 4.5). -/
inductive Tier where
  | hourly
  | sixHours
  | daily
  | all
deriving Repr, DecidableEq

/-- Modelled from the spec: whether the `check_interval` column of a tracker
belongs to the requested tier (spec section 4.5; "all" matches every
tier). -/
def tierMatches (tier : Tier) (interval : String) : Bool :=
  match tier with
  | .hourly => interval = "hourly"
  | .sixHours => interval = "6hours"
  | .daily => interval = "daily"
  | .all => true

/-- Modelled from the spec: the Run Orchestrator tracker selection
(spec section 4.5) — all rows with `is_active = true`, `expires_at`
null or in the future, and `check_interval` matching the requested
tier.  `src/monitor.py` is absent from the tree.  Date strings compare
lexicographically, which on ISO dates agrees with chronology. -/
def selectTrackers (db : List TrackedUrl) (tier : Tier) (nowTs : String) :
    List TrackedUrl :=
  db.filter fun t =>
    t.is_active &&
    (match t.expires_at with
     | none => true
     | some e => decide (nowTs < e)) &&
    tierMatches tier t.check_interval

/-- The disjunction of failure conditions under which `parseUclaUrl`
is claimed to return null for a successfully constructed URL: hostname
not containing `sa.ucla.edu`, or one of the four query parameters
absent or empty (subject area and catalog number after trimming). -/
def uclaNullCond (parts : URLParts) : Bool :=
  !hostIncludes parts.hostname "sa.ucla.edu" ||
  optFalsy (getParam parts "term_cd") ||
  optFalsy ((getParam parts "subj_area_cd").map jsTrim) ||
  optFalsy ((getParam parts "crs_catlg_no").map jsTrim) ||
  optFalsy (getParam parts "class_id")

/-- States of the `email_tokens` table reachable from a starting state
by any sequence of GET /api/trackers invocations (the only code in the
tree that writes this table after insertion). -/
inductive TokensReach : List EmailToken → List EmailToken → Prop where
  | refl (ts : List EmailToken) : TokensReach ts ts
  | step (ts ts' : List EmailToken) (db : List TrackedUrl)
      (emailP tokenP : Option String) (now : Nat) :
      TokensReach ts ts' →
      TokensReach ts ((getTrackers ts' db emailP tokenP now).2)

/-! ### Concrete sample data used by the witness theorems -/

/-- Parse outcome of a well-formed UCLA Schedule-of-Classes URL. -/
def sampleParts : URLParts :=
  { hostname := "sa.ucla.edu"
    params := [("term_cd", "26W"), ("subj_area_cd", "COM SCI"),
               ("crs_catlg_no", "0180"), ("class_id", "187200210")] }

/-- `parseUclaUrl (some sampleParts)` as an explicit record. -/
def sampleParsed : ParsedUcla :=
  { termCode := "26W", subjectArea := "COM SCI"
    catalogNumber := "0180", classId := "187200210" }

/-- A fully valid creation request. -/
def sampleReq : CreateRequest :=
  { email := some "bruin@ucla.edu"
    resendApiKey := some "re_abc123"
    uclaUrl := some "https://sa.ucla.edu/ro/ClassDetail"
    className := some "COM SCI 180"
    termCode := none
    subjectArea := none
    catalogNumber := none
    checkInterval := some "hourly"
    expiresAt := some "2026-03-20" }

/-- An active stored tracker for the same email and URL as `sampleReq`,
with a null expiration date. -/
def sampleTracker : TrackedUrl :=
  { id := "id-1", email := "bruin@ucla.edu", resend_api_key := "re_abc123"
    ucla_url := "https://sa.ucla.edu/ro/ClassDetail"
    class_name := some "COM SCI 180", term_code := some "26W"
    subject_area := some "COM SCI", catalog_number := some "0180"
    selector := "#enrl_mtng_info", check_interval := "hourly"
    expires_at := none, baseline_hash := none, baseline_content := none
    last_checked_at := none, last_change_at := none, is_active := true
    created_at := "2026-01-01", updated_at := "2026-01-01" }

/-- The same tracker, soft-deleted. -/
def sampleInactive : TrackedUrl :=
  { sampleTracker with id := "id-0", is_active := false }

/-- A fresh verification token. -/
def sampleToken : EmailToken :=
  { id := "tok-1", email := "bruin@ucla.edu", token := "abc123token"
    expires_at := 100, used_at := none, created_at := 0 }

/-- `sampleReq` with the expiration date omitted. -/
def reqNoExpiry : CreateRequest :=
  { sampleReq with expiresAt := none }

/-- `sampleReq` with the Resend credential omitted. -/
def reqNoKey : CreateRequest :=
  { sampleReq with resendApiKey := none }

/-- `sampleReq` with an interval outside the allowed set. -/
def reqBadInterval : CreateRequest :=
  { sampleReq with checkInterval := some "weekly" }

/-! ### Shared helper lemmas -/

theorem singleRow_eq_some {α : Type} (l : List α) (x : α) :
    singleRow l = some x ↔ l = [x] := by
  cases l with
  | nil => simp [singleRow]
  | cons a t =>
    cases t with
    | nil => simp [singleRow]
    | cons b t => simp [singleRow]

theorem filter_le_one_unique {α : Type} (l : List α) (p : α → Bool)
    (h : (l.filter p).length ≤ 1) {a b : α}
    (ha : a ∈ l) (hb : b ∈ l) (pa : p a = true) (pb : p b = true) : a = b := by
  have ha' : a ∈ l.filter p := List.mem_filter.mpr ⟨ha, pa⟩
  have hb' : b ∈ l.filter p := List.mem_filter.mpr ⟨hb, pb⟩
  cases hfl : l.filter p with
  | nil => rw [hfl] at ha'; cases ha'
  | cons x t =>
    cases t with
    | nil =>
      rw [hfl] at ha' hb'
      simp only [List.mem_singleton] at ha' hb'
      rw [ha', hb']
    | cons y t =>
      rw [hfl] at h
      simp at h

/-! ### Claim theorems -/

/-- Claim C7: for raw content strings that differ only in whitespace
variation (equal whitespace-separated word sequences), the Normalizer
yields the identical canonical string and the identical fingerprint;
determinism holds by construction since both are pure functions of the
input.  (spec-modelled: `src/monitor.py` is absent from the tree.) -/
theorem normalizer_whitespace_invariant (s₁ s₂ : String)
    (h : wsWords s₁ = wsWords s₂) :
    canonicalize s₁ = canonicalize s₂ ∧ fingerprint s₁ = fingerprint s₂ := by
  constructor
  · unfold canonicalize; rw [h]
  · unfold fingerprint canonicalize; rw [h]

/-- Witness for C7 at two concrete strings differing only in
whitespace. -/
theorem normalizer_whitespace_invariant_witness :
    canonicalize "  Open:   5\n seats " = canonicalize "Open: 5 seats" ∧
    fingerprint "  Open:   5\n seats " = fingerprint "Open: 5 seats" :=
  normalizer_whitespace_invariant "  Open:   5\n seats " "Open: 5 seats"
    (by decide)

/-- Claim C8: running the same per-tracker pass twice in immediate
succession with the same fetch outcome (no underlying content change)
sends no notification on the second run and leaves `last_change_at`
and the baseline unchanged after the second run; only the
`last_checked_at` bookkeeping may differ.  (spec-modelled:
`src/monitor.py` is absent from the tree.) -/
theorem pass_idempotent (t : TrackedUrl) (f : FetchOutcome) (n₁ n₂ : String) :
    (runCheck (runCheck t f n₁).1 f n₂).2.2 = false ∧
    (runCheck (runCheck t f n₁).1 f n₂).1.last_change_at =
      (runCheck t f n₁).1.last_change_at ∧
    (runCheck (runCheck t f n₁).1 f n₂).1.baseline_hash =
      (runCheck t f n₁).1.baseline_hash ∧
    (runCheck (runCheck t f n₁).1 f n₂).1.baseline_content =
      (runCheck t f n₁).1.baseline_content := by
  cases f with
  | failure => simp [runCheck]
  | success content =>
    cases hb : t.baseline_hash with
    | none => simp [runCheck, hb]
    | some b =>
      by_cases he : toString (hashStr (canonicalize content)) = b
      · simp [runCheck, hb, he]
      · simp [runCheck, hb, he]

/-- Claim C10: `parseUclaUrl` is total (the try/catch of the source is
the `none` case of the URL-parse outcome) and returns null exactly when
the URL did not parse, the hostname does not contain `sa.ucla.edu`, or
one of `term_cd`, `subj_area_cd`, `crs_catlg_no`, `class_id` is absent
or empty (subject area and catalog number after trimming); otherwise it
returns exactly the four extracted values. -/
theorem parseUclaUrl_characterization :
    (parseUclaUrl none = none) ∧
    (∀ parts : URLParts,
      (parseUclaUrl (some parts) = none ↔ uclaNullCond parts = true)) ∧
    (∀ parts : URLParts, uclaNullCond parts = false →
      parseUclaUrl (some parts) =
        some { termCode := jsStr (getParam parts "term_cd")
               subjectArea := jsStr ((getParam parts "subj_area_cd").map jsTrim)
               catalogNumber := jsStr ((getParam parts "crs_catlg_no").map jsTrim)
               classId := jsStr (getParam parts "class_id") }) := by
  refine ⟨rfl, ?_, ?_⟩ <;> intro parts
  · unfold parseUclaUrl uclaNullCond
    cases h1 : hostIncludes parts.hostname "sa.ucla.edu" <;> simp [h1]
    cases h2 : optFalsy (getParam parts "term_cd") <;>
      cases h3 : optFalsy ((getParam parts "subj_area_cd").map jsTrim) <;>
        cases h4 : optFalsy ((getParam parts "crs_catlg_no").map jsTrim) <;>
          cases h5 : optFalsy (getParam parts "class_id") <;> simp
  · intro h
    unfold uclaNullCond at h
    simp only [Bool.or_eq_false_iff, Bool.not_eq_false'] at h
    obtain ⟨⟨⟨⟨h1, h2⟩, h3⟩, h4⟩, h5⟩ := h
    unfold parseUclaUrl
    simp [h1, h2, h3, h4, h5]

/-- Witness for C10 at a concrete well-formed UCLA URL. -/
theorem parseUclaUrl_characterization_witness :
    parseUclaUrl (some sampleParts) =
      some { termCode := jsStr (getParam sampleParts "term_cd")
             subjectArea := jsStr ((getParam sampleParts "subj_area_cd").map jsTrim)
             catalogNumber := jsStr ((getParam sampleParts "crs_catlg_no").map jsTrim)
             classId := jsStr (getParam sampleParts "class_id") } :=
  parseUclaUrl_characterization.2.2 sampleParts (by decide)

/-- Counterexample to claim C1 as stated: a creation request that omits
the expiration date does not create a tracker — POST /api/trackers
rejects it with HTTP 400 and the required-fields message, leaving the
store unchanged. -/
theorem post_omitting_expiration_rejected :
    postTrackers reqNoExpiry (some sampleParts) .ok [] "id-1" "2026-01-01" =
      (.error 400 "Email, UCLA URL, Resend API key, and end date are required",
       []) := by
  decide

/-- Claim C1 (amended): the expiration date is required by the creation
endpoint — a request whose `expiresAt` is absent or empty is rejected
with HTTP 400 and no tracker is inserted; a stored tracker whose
`expires_at` is null is treated as eligible by the (spec-modelled)
Orchestrator selection whenever `is_active` is true and the interval
tier matches. -/
theorem post_requires_expiration_and_null_expiry_selected
    (req : CreateRequest) (urlParse : Option URLParts) (chk : ResendCheck)
    (db : List TrackedUrl) (nid nowTs : String)
    (db₂ : List TrackedUrl) (tier : Tier) (selNow : String) (t : TrackedUrl)
    (hexp : optFalsy req.expiresAt = true)
    (ht : t ∈ db₂) (hact : t.is_active = true) (hnull : t.expires_at = none)
    (htier : tierMatches tier t.check_interval = true) :
    postTrackers req urlParse chk db nid nowTs =
      (.error 400 "Email, UCLA URL, Resend API key, and end date are required",
       db) ∧
    t ∈ selectTrackers db₂ tier selNow := by
  constructor
  · unfold postTrackers
    simp [hexp]
  · unfold selectTrackers
    exact List.mem_filter.mpr ⟨ht, by simp [hact, hnull, htier]⟩

/-- Witness for the amended C1 at concrete inputs. -/
theorem post_requires_expiration_witness :
    postTrackers reqNoExpiry (some sampleParts) .threw [sampleInactive]
        "id-9" "2026-01-05" =
      (.error 400 "Email, UCLA URL, Resend API key, and end date are required",
       [sampleInactive]) ∧
    sampleTracker ∈ selectTrackers [sampleTracker] .hourly "2026-02-02" :=
  post_requires_expiration_and_null_expiry_selected reqNoExpiry
    (some sampleParts) .threw [sampleInactive] "id-9" "2026-01-05"
    [sampleTracker] .hourly "2026-02-02" sampleTracker
    (by decide) (by decide) (by decide) (by decide) (by decide)

/-- Counterexample to claim C2 as stated: a creation request with no
tracker-specific credential is rejected by POST /api/trackers with
HTTP 400 — the tracker is rejected rather than stored for fallback
delivery. -/
theorem post_missing_credential_rejected :
    postTrackers reqNoKey (some sampleParts) .ok [] "id-1" "2026-01-01" =
      (.error 400 "Email, UCLA URL, Resend API key, and end date are required",
       []) := by
  decide

/-- Claim C2 (amended): the per-tracker Resend credential is required —
every creation request whose `resendApiKey` is absent or empty is
rejected with HTTP 400 and no tracker is stored, so every stored
tracker carries its own credential and the creation endpoint never
falls back to a process-wide default. -/
theorem post_requires_credential
    (req : CreateRequest) (urlParse : Option URLParts) (chk : ResendCheck)
    (db : List TrackedUrl) (nid nowTs : String)
    (hkey : optFalsy req.resendApiKey = true) :
    postTrackers req urlParse chk db nid nowTs =
      (.error 400 "Email, UCLA URL, Resend API key, and end date are required",
       db) := by
  unfold postTrackers
  simp [hkey]

/-- Witness for the amended C2 at concrete inputs. -/
theorem post_requires_credential_witness :
    postTrackers reqNoKey (some sampleParts) .ok [sampleTracker]
        "id-7" "2026-01-09" =
      (.error 400 "Email, UCLA URL, Resend API key, and end date are required",
       [sampleTracker]) :=
  post_requires_credential reqNoKey (some sampleParts) .ok [sampleTracker]
    "id-7" "2026-01-09" (by decide)

/-- Claim C4: the interval tier of a tracker is constrained to
{hourly, 6hours, daily} — a creation request whose effective interval
is any other value is answered with an error and inserts nothing,
whatever the other inputs are. -/
theorem post_invalid_interval_rejected
    (req : CreateRequest) (urlParse : Option URLParts) (chk : ResendCheck)
    (db : List TrackedUrl) (nid nowTs : String)
    (h : (["hourly", "6hours", "daily"].contains (effInterval req)) = false) :
    ((postTrackers req urlParse chk db nid nowTs).1).isError = true ∧
    (postTrackers req urlParse chk db nid nowTs).2 = db := by
  unfold postTrackers
  (repeat' split) <;> simp_all [PostResult.isError]

/-- Witness for C4 at a concrete request with interval "weekly". -/
theorem post_invalid_interval_rejected_witness :
    ((postTrackers reqBadInterval (some sampleParts) .ok [] "id-3"
        "2026-01-01").1).isError = true ∧
    (postTrackers reqBadInterval (some sampleParts) .ok [] "id-3"
        "2026-01-01").2 = [] :=
  post_invalid_interval_rejected reqBadInterval (some sampleParts) .ok []
    "id-3" "2026-01-01" (by decide)

/-- Claim C3: every tracker created through POST /api/trackers starts
with `is_active = true`, a null baseline (`baseline_hash` and
`baseline_content` both null), and no check or change timestamp; the
new row is appended to the store and nothing else changes. -/
theorem post_created_null_baseline
    (req : CreateRequest) (urlParse : Option URLParts) (chk : ResendCheck)
    (db : List TrackedUrl) (nid nowTs : String) (t : TrackedUrl)
    (h : (postTrackers req urlParse chk db nid nowTs).1 = .created t) :
    t.is_active = true ∧ t.baseline_hash = none ∧ t.baseline_content = none ∧
    t.last_checked_at = none ∧ t.last_change_at = none ∧
    (postTrackers req urlParse chk db nid nowTs).2 = db ++ [t] := by
  rcases hPT : postTrackers req urlParse chk db nid nowTs with ⟨res, db'⟩
  rw [hPT] at h
  simp only at h ⊢
  unfold postTrackers at hPT
  (repeat' split at hPT) <;> simp_all [newTracker]
  obtain ⟨h1, h2⟩ := hPT
  subst h1
  subst h2
  simp

/-- Witness for C3: a concrete successful creation. -/
theorem post_created_null_baseline_witness :
    (newTracker sampleReq sampleParsed "id-1" "2026-01-01").is_active = true ∧
    (newTracker sampleReq sampleParsed "id-1" "2026-01-01").baseline_hash = none ∧
    (newTracker sampleReq sampleParsed "id-1" "2026-01-01").baseline_content = none ∧
    (newTracker sampleReq sampleParsed "id-1" "2026-01-01").last_checked_at = none ∧
    (newTracker sampleReq sampleParsed "id-1" "2026-01-01").last_change_at = none ∧
    (postTrackers sampleReq (some sampleParts) .ok [] "id-1" "2026-01-01").2 =
      [] ++ [newTracker sampleReq sampleParsed "id-1" "2026-01-01"] :=
  post_created_null_baseline sampleReq (some sampleParts) .ok [] "id-1"
    "2026-01-01" (newTracker sampleReq sampleParsed "id-1" "2026-01-01")
    (by decide)

/-- Claim C5: the deletion flow never hard-deletes.  With both query
parameters present, DELETE /api/trackers reports success, applies
exactly `softDeleteRow` to every row (so the row count is preserved),
and `softDeleteRow` sets `is_active` to false on the row matching both
the id and the email while leaving every other field of every row — and
every field of non-matching rows — unchanged. -/
theorem delete_soft_never_removes
    (db : List TrackedUrl) (idP emailP : Option String)
    (hid : optFalsy idP = false) (hem : optFalsy emailP = false) :
    (deleteTracker db idP emailP).1 = .deleted ∧
    (deleteTracker db idP emailP).2 =
      db.map (softDeleteRow (jsStr idP) (jsStr emailP)) ∧
    ((deleteTracker db idP emailP).2).length = db.length ∧
    (∀ t : TrackedUrl,
      (softDeleteRow (jsStr idP) (jsStr emailP) t).id = t.id ∧
      (softDeleteRow (jsStr idP) (jsStr emailP) t).email = t.email ∧
      (softDeleteRow (jsStr idP) (jsStr emailP) t).resend_api_key =
        t.resend_api_key ∧
      (softDeleteRow (jsStr idP) (jsStr emailP) t).ucla_url = t.ucla_url ∧
      (softDeleteRow (jsStr idP) (jsStr emailP) t).class_name = t.class_name ∧
      (softDeleteRow (jsStr idP) (jsStr emailP) t).term_code = t.term_code ∧
      (softDeleteRow (jsStr idP) (jsStr emailP) t).subject_area =
        t.subject_area ∧
      (softDeleteRow (jsStr idP) (jsStr emailP) t).catalog_number =
        t.catalog_number ∧
      (softDeleteRow (jsStr idP) (jsStr emailP) t).selector = t.selector ∧
      (softDeleteRow (jsStr idP) (jsStr emailP) t).check_interval =
        t.check_interval ∧
      (softDeleteRow (jsStr idP) (jsStr emailP) t).expires_at = t.expires_at ∧
      (softDeleteRow (jsStr idP) (jsStr emailP) t).baseline_hash =
        t.baseline_hash ∧
      (softDeleteRow (jsStr idP) (jsStr emailP) t).baseline_content =
        t.baseline_content ∧
      (softDeleteRow (jsStr idP) (jsStr emailP) t).last_checked_at =
        t.last_checked_at ∧
      (softDeleteRow (jsStr idP) (jsStr emailP) t).last_change_at =
        t.last_change_at ∧
      (softDeleteRow (jsStr idP) (jsStr emailP) t).created_at = t.created_at ∧
      (softDeleteRow (jsStr idP) (jsStr emailP) t).updated_at = t.updated_at ∧
      ((softDeleteRow (jsStr idP) (jsStr emailP) t).is_active =
        if t.id = jsStr idP ∧ t.email = jsStr emailP then false
        else t.is_active) ∧
      (¬(t.id = jsStr idP ∧ t.email = jsStr emailP) →
        softDeleteRow (jsStr idP) (jsStr emailP) t = t)) := by
  refine ⟨?_, ?_, ?_, ?_⟩
  · unfold deleteTracker; simp [hid, hem]
  · unfold deleteTracker; simp [hid, hem]
  · unfold deleteTracker; simp [hid, hem]
  · intro t
    unfold softDeleteRow
    by_cases h1 : t.id = jsStr idP <;> by_cases h2 : t.email = jsStr emailP <;>
      simp [h1, h2]

/-- Witness for C5 on a concrete two-row store. -/
theorem delete_soft_never_removes_witness :
    (deleteTracker [sampleTracker, sampleInactive] (some "id-1")
      (some "bruin@ucla.edu")).2.length = 2 := by
  have h := delete_soft_never_removes [sampleTracker, sampleInactive]
    (some "id-1") (some "bruin@ucla.edu") (by decide) (by decide)
  simpa using h.2.2.1

/-- Claim C9: for an otherwise-valid creation request, a single stored
active tracker with the same email and URL makes POST /api/trackers
answer HTTP 409 and leave the store unchanged, while a store whose
matching trackers are all inactive (empty active-duplicate filter) does
not block creation — the new row is inserted. -/
theorem post_duplicate_conflict
    (req : CreateRequest) (urlParse : Option URLParts) (chk : ResendCheck)
    (db : List TrackedUrl) (nid nowTs : String) (parsed : ParsedUcla)
    (hem : optFalsy req.email = false) (hurl : optFalsy req.uclaUrl = false)
    (hkey : optFalsy req.resendApiKey = false)
    (hexp : optFalsy req.expiresAt = false)
    (hfmt : emailFormatValid (jsStr req.email) = true)
    (hpre : jsStartsWith (jsStr req.resendApiKey) "re_" = true)
    (hchk : resendRejection chk = none)
    (hparse : parseUclaUrl urlParse = some parsed)
    (hint : (["hourly", "6hours", "daily"].contains (effInterval req)) = true) :
    ((db.filter (isActiveDup (jsStr req.email) (jsStr req.uclaUrl))).length = 1 →
      postTrackers req urlParse chk db nid nowTs =
        (.error 409 "You are already tracking this class", db)) ∧
    (db.filter (isActiveDup (jsStr req.email) (jsStr req.uclaUrl)) = [] →
      postTrackers req urlParse chk db nid nowTs =
        (.created (newTracker req parsed nid nowTs),
         db ++ [newTracker req parsed nid nowTs])) := by
  have hint3 : effInterval req = "hourly" ∨ effInterval req = "6hours" ∨
      effInterval req = "daily" := by simpa using hint
  constructor
  · intro hlen
    obtain ⟨x, hx⟩ := List.length_eq_one.mp hlen
    unfold postTrackers
    simp [hem, hurl, hkey, hexp, hfmt, hpre, hchk, hparse, hx, singleRow]
    tauto
  · intro hnil
    unfold postTrackers
    simp [hem, hurl, hkey, hexp, hfmt, hpre, hchk, hparse, hnil, singleRow]
    tauto

/-- Witness for C9: the same valid request against a store holding the
active duplicate (conflict) and against a store holding only the
soft-deleted duplicate (creation succeeds). -/
theorem post_duplicate_conflict_witness :
    postTrackers sampleReq (some sampleParts) .ok [sampleTracker] "id-2"
        "2026-01-02" =
      (.error 409 "You are already tracking this class", [sampleTracker]) ∧
    postTrackers sampleReq (some sampleParts) .ok [sampleInactive] "id-2"
        "2026-01-02" =
      (.created (newTracker sampleReq sampleParsed "id-2" "2026-01-02"),
       [sampleInactive] ++ [newTracker sampleReq sampleParsed "id-2"
         "2026-01-02"]) := by
  constructor
  · exact (post_duplicate_conflict sampleReq (some sampleParts) .ok
      [sampleTracker] "id-2" "2026-01-02" sampleParsed (by decide) (by decide)
      (by decide) (by decide) (by decide) (by decide) (by decide) (by decide)
      (by decide)).1 (by decide)
  · exact (post_duplicate_conflict sampleReq (some sampleParts) .ok
      [sampleInactive] "id-2" "2026-01-02" sampleParsed (by decide) (by decide)
      (by decide) (by decide) (by decide) (by decide) (by decide) (by decide)
      (by decide)).2 (by decide)

theorem getTrackers_preserves_used (ts : List EmailToken)
    (db : List TrackedUrl) (emailP tokenP : Option String) (now : Nat)
    (tok : String)
    (h : ∀ r ∈ ts, r.token = tok → r.used_at ≠ none) :
    ∀ r ∈ (getTrackers ts db emailP tokenP now).2,
      r.token = tok → r.used_at ≠ none := by
  intro r hr htk
  unfold getTrackers at hr
  split at hr
  · exact h r hr htk
  split at hr
  · exact h r hr htk
  split at hr
  · exact h r hr htk
  rename_i row heq
  simp only at hr
  obtain ⟨r0, hr0, hmark⟩ := List.mem_map.mp hr
  by_cases hid : r0.id = row.id
  · rw [← hmark]
    simp [hid]
  · rw [← hmark] at htk ⊢
    simp only [if_neg hid] at htk ⊢
    exact h r0 hr0 htk

theorem getTrackers_all_used_never_ok (ts : List EmailToken)
    (db : List TrackedUrl) (emailP : Option String) (tok : String) (now : Nat)
    (h : ∀ r ∈ ts, r.token = tok → r.used_at ≠ none) (htok : tok ≠ "") :
    ∀ l : List TrackedUrl,
      (getTrackers ts db emailP (some tok) now).1 ≠ .ok l := by
  intro l
  have hft : optFalsy (some tok) = false := by simp [optFalsy, htok]
  have hfil : ts.filter (tokenEligible (jsStr emailP) tok now) = [] := by
    rw [List.filter_eq_nil_iff]
    intro r hr helig
    simp only [tokenEligible, Bool.and_eq_true, decide_eq_true_eq] at helig
    exact h r hr helig.1.1.1 helig.1.2
  cases hfe : optFalsy emailP with
  | true => simp [getTrackers, hfe]
  | false =>
    unfold getTrackers
    rw [if_neg (by simp [hfe]), if_neg (by simp [hft])]
    have hjt : jsStr (some tok) = tok := rfl
    rw [hjt, hfil]
    simp [singleRow]

/-- Claim C6: verification tokens accepted by the tracker-listing
endpoint are single-use.  With a nonempty email and token and the
database uniqueness of the token column (at most one row carries it):
a request whose matching rows are all used or expired is answered with
HTTP 401 and no tracker list, leaving the token store unchanged; a
request that succeeds did so on a token row that was unused and
unexpired, marks that row used, and from the resulting store no later
GET request carrying the same token — through any further sequence of
GET invocations — is ever authorized again. -/
theorem token_single_use
    (tokens : List EmailToken) (db : List TrackedUrl) (em tok : String)
    (now : Nat) (hem : em ≠ "") (htok : tok ≠ "")
    (huniq : (tokens.filter fun r => r.token = tok).length ≤ 1) :
    ((∀ r ∈ tokens, r.token = tok → r.email = em →
        r.used_at ≠ none ∨ r.expires_at ≤ now) →
      getTrackers tokens db (some em) (some tok) now =
        (.error 401 "Invalid or expired token", tokens)) ∧
    (∀ res tokens₂,
      getTrackers tokens db (some em) (some tok) now = (.ok res, tokens₂) →
      (∃ r ∈ tokens, tokenEligible em tok now r = true) ∧
      (∃ r ∈ tokens₂, r.token = tok ∧ r.used_at = some now) ∧
      (∀ tokens₃, TokensReach tokens₂ tokens₃ →
        ∀ (db₃ : List TrackedUrl) (emP : Option String) (now₃ : Nat)
          (l : List TrackedUrl),
          (getTrackers tokens₃ db₃ emP (some tok) now₃).1 ≠ .ok l)) := by
  have hfe : optFalsy (some em) = false := by simp [optFalsy, hem]
  have hft : optFalsy (some tok) = false := by simp [optFalsy, htok]
  constructor
  · intro hbad
    have hfil : tokens.filter (tokenEligible em tok now) = [] := by
      rw [List.filter_eq_nil_iff]
      intro r hr helig
      simp only [tokenEligible, Bool.and_eq_true, decide_eq_true_eq] at helig
      obtain ⟨⟨⟨ht, he⟩, hu⟩, hlt⟩ := helig
      rcases hbad r hr ht he with h1 | h1
      · exact h1 hu
      · omega
    simp [getTrackers, hfe, hft, jsStr, hfil, singleRow]
  · intro res tokens₂ hok
    unfold getTrackers at hok
    rw [if_neg (by simp [hfe]), if_neg (by simp [hft])] at hok
    simp only [jsStr] at hok
    cases hsr : singleRow (tokens.filter (tokenEligible em tok now)) with
    | none => rw [hsr] at hok; simp at hok
    | some row =>
      rw [hsr] at hok
      simp only [Prod.mk.injEq, GetResult.ok.injEq] at hok
      obtain ⟨hres, htoks⟩ := hok
      have hfl : tokens.filter (tokenEligible em tok now) = [row] :=
        (singleRow_eq_some _ _).mp hsr
      have hrowf : row ∈ tokens.filter (tokenEligible em tok now) := by
        rw [hfl]; simp
      obtain ⟨hrowmem, hrowelig⟩ := List.mem_filter.mp hrowf
      have helig := hrowelig
      simp only [tokenEligible, Bool.and_eq_true, decide_eq_true_eq] at helig
      obtain ⟨⟨⟨ht, he⟩, hu⟩, hlt⟩ := helig
      refine ⟨⟨row, hrowmem, hrowelig⟩, ?_, ?_⟩
      · refine ⟨{ row with used_at := some now }, ?_, ht, rfl⟩
        rw [← htoks]
        have hmk : ({ row with used_at := some now } : EmailToken) =
            (fun r => if r.id = row.id then { r with used_at := some now }
              else r) row := by simp
        rw [hmk]
        exact List.mem_map_of_mem _ hrowmem
      · intro tokens₃ hreach db₃ emP now₃ l
        have hinv : ∀ r ∈ tokens₂, r.token = tok → r.used_at ≠ none := by
          intro r hr htk
          rw [← htoks] at hr
          obtain ⟨r0, hr0, hmark⟩ := List.mem_map.mp hr
          by_cases hid : r0.id = row.id
          · rw [← hmark]
            simp [hid]
          · rw [← hmark] at htk ⊢
            simp only [if_neg hid] at htk ⊢
            have hr0row : r0 = row :=
              filter_le_one_unique tokens _ huniq hr0 hrowmem
                (by simp [htk]) (by simp [ht])
            exact absurd (congrArg EmailToken.id hr0row) hid
        have hinv3 : ∀ r ∈ tokens₃, r.token = tok → r.used_at ≠ none := by
          induction hreach with
          | refl => exact hinv
          | step ts' db0 e0 t0 n0 hprev ih =>
            exact getTrackers_preserves_used ts' db0 e0 t0 n0 tok ih
        exact getTrackers_all_used_never_ok tokens₃ db₃ emP tok now₃ hinv3
          htok l

/-- Witness for C6: a store holding one fresh token; after the
authorized request, the token is spent for every reachable later state. -/
theorem token_single_use_witness :
    (∃ r ∈ ([sampleToken] : List EmailToken),
      tokenEligible "bruin@ucla.edu" "abc123token" 50 r = true) ∧
    (∀ tokens₃,
      TokensReach [{ sampleToken with used_at := some 50 }] tokens₃ →
      ∀ (db₃ : List TrackedUrl) (emP : Option String) (now₃ : Nat)
        (l : List TrackedUrl),
        (getTrackers tokens₃ db₃ emP (some "abc123token") now₃).1 ≠
          .ok l) := by
  have h := (token_single_use [sampleToken] [] "bruin@ucla.edu"
    "abc123token" 50 (by decide) (by decide) (by decide)).2
    [] [{ sampleToken with used_at := some 50 }] (by decide)
  exact ⟨h.1, h.2.2⟩

end VisualPing
